import Mathlib

/-!
Verification of the record-linkage scripts of this repository.

The embedding below models, in Lean, the decision logic of
`douban_to_tmdb.py` (the resolver `tmdb_search` together with the batch
driver `main`) and of `merge_yaml.py` (`merge_data`).  Pure fragments of
the Python code become Lean functions over explicit data; the network
call inside the provider closure `search` is modelled as a function
argument, and Python exceptions are modelled with `Except` where they
matter.  Python strings are modelled through their character lists
(`String.data`); `str.strip` / `str.lower` are modelled with
`Char.isWhitespace` / `Char.toLower`, which agree with Python on the
ASCII inputs considered here.
-/

namespace MyScripts

/-! ## Python string primitives -/

/-- Python `s.strip()`: remove leading and trailing whitespace. -/
def pyStrip (s : String) : String :=
  String.mk (((s.data.dropWhile Char.isWhitespace).reverse.dropWhile
    Char.isWhitespace).reverse)

/-- Python `s.lower()` (ASCII case folding, which covers the inputs used). -/
def pyLower (s : String) : String :=
  String.mk (s.data.map Char.toLower)

/-- Python `s.lstrip('/')`: remove leading slash characters. -/
def pyLstripSlash (s : String) : String :=
  String.mk (s.data.dropWhile (fun c => c == '/'))

/-- Python `s[:4]` (the 4-character year slice of `release_date`). -/
def pyTake4 (s : String) : String :=
  String.mk (s.data.take 4)

/-- Python `sub in s` for strings: substring containment. -/
def pyIn (sub s : String) : Bool :=
  decide (sub.data <:+: s.data)

/-- The composite `s.strip().lower()` used on every compared title. -/
def stripLower (s : String) : String :=
  pyLower (pyStrip s)

/-- `title_en.strip().lstrip('/').strip()` from lines 49 and 57 of
`douban_to_tmdb.py`. -/
def cleanTitleEn (s : String) : String :=
  pyStrip (pyLstripSlash (pyStrip s))

/-- Python truthiness of `year` (an `int` or `None`): `None` and `0` are
falsy. -/
def pyTruthy : Option Nat → Bool
  | none => false
  | some y => y != 0

/-- The year argument actually passed to the provider by
`search(title, year) if year else search(title)`. -/
def yearArg (year : Option Nat) : Option Nat :=
  if pyTruthy year then year else none

/-! ## Candidate model

One entry of the provider's `results` list.  A field that may be absent
from the JSON object is an `Option`; `movie.get(k, d)` is `Option.getD`.
The `id` field is modelled as always present (`movie["id"]` is a plain
subscript in the source). -/

structure Candidate where
  id : Nat
  title : Option String := none
  original_title : Option String := none
  release_date : Option String := none
  genre_ids : Option (List Nat) := none
  deriving DecidableEq

/-- `movie.get("title", "").strip().lower()` (line 91). -/
def tmdbTitle (c : Candidate) : String :=
  stripLower (c.title.getD "")

/-- `movie.get("original_title", "").strip().lower()` (line 92). -/
def tmdbOriginal (c : Candidate) : String :=
  stripLower (c.original_title.getD "")

/-- `movie.get("release_date", "")[:4]` (line 93). -/
def tmdbYear (c : Candidate) : String :=
  pyTake4 (c.release_date.getD "")

/-- `movie.get("genre_ids", [])` (line 67). -/
def genreList (c : Candidate) : List Nat :=
  c.genre_ids.getD []

/-- `10767 in genres or 10770 in genres or 99 in genres` (line 69):
talk show, TV movie, documentary. -/
def isExcludedGenre (c : Candidate) : Bool :=
  (genreList c).contains 10767 || (genreList c).contains 10770 ||
    (genreList c).contains 99

/-- Lines 64–74: drop excluded genres, but fall back to the unfiltered
list when the filter removes everything. -/
def movieResults (results : List Candidate) : List Candidate :=
  let ms := results.filter (fun c => !(isExcludedGenre c))
  if ms.isEmpty then results else ms

/-! ## The search cascade (lines 44–59)

The provider closure `search` is a parameter `f`; a call is a pair of
query text and optional year.  `cascade` returns both the list of calls
issued (in order) and the final `results` value, mirroring the nested
reassignments of the source. -/

abbrev SearchCall := String × Option Nat

def cascade (f : String → Option Nat → List Candidate)
    (title_cn title_en : String) (year : Option Nat) :
    List SearchCall × List Candidate :=
  let r1 := f title_cn (yearArg year)
  let s2 : List SearchCall × List Candidate :=
    if r1.isEmpty && title_en != "" then
      let c := cleanTitleEn title_en
      if c != "" then ([(c, yearArg year)], f c (yearArg year)) else ([], r1)
    else ([], r1)
  let s3 : List SearchCall × List Candidate :=
    if s2.2.isEmpty then
      let r := f title_cn none
      if r.isEmpty && title_en != "" then
        let c := cleanTitleEn title_en
        if c != "" then ([(title_cn, none), (c, none)], f c none)
        else ([(title_cn, none)], r)
      else ([(title_cn, none)], r)
    else ([], s2.2)
  ((title_cn, yearArg year) :: (s2.1 ++ s3.1), s3.2)

/-- Modelled from the spec's cascade description (§4.1): the fixed list of
(title, year-constraint) attempts, for comparison with `cascade`. -/
def attemptList (title_cn title_en : String) (year : Option Nat) :
    List SearchCall :=
  if title_en != "" && cleanTitleEn title_en != "" then
    [(title_cn, yearArg year), (cleanTitleEn title_en, yearArg year),
      (title_cn, none), (cleanTitleEn title_en, none)]
  else
    [(title_cn, yearArg year), (title_cn, none)]

/-- Modelled from the spec's cascade description (§4.1): issue the
attempts in order, stopping at the first non-empty result. -/
def runAttempts (f : String → Option Nat → List Candidate) :
    List SearchCall → List SearchCall × List Candidate
  | [] => ([], [])
  | a :: rest =>
    let r := f a.1 a.2
    if r.isEmpty then
      let p := runAttempts f rest
      (a :: p.1, p.2)
    else ([a], r)

/-! ## The tiered matching policy (lines 87–119) -/

/-- Tier 1 (lines 89–96): release year equals `str(year)` and one of the
two titles matches exactly after strip + lower. -/
def tier1Pred (title_cn title_en : String) (y : Nat) (c : Candidate) : Bool :=
  tmdbYear c == toString y &&
    (tmdbTitle c == stripLower title_cn ||
      tmdbOriginal c == stripLower title_en)

/-- Tier 2 (lines 98–102): release year equals `str(year)`. -/
def tier2Pred (y : Nat) (c : Candidate) : Bool :=
  tmdbYear c == toString y

/-- Tier 3 (lines 104–109): exact title match, ignoring year. -/
def tier3Pred (title_cn title_en : String) (c : Candidate) : Bool :=
  tmdbTitle c == stripLower title_cn ||
    tmdbOriginal c == stripLower title_en

/-- Tier 4 (lines 111–116): substring title match. -/
def tier4Pred (title_cn title_en : String) (c : Candidate) : Bool :=
  pyIn (stripLower title_cn) (tmdbTitle c) ||
    pyIn (stripLower title_en) (tmdbOriginal c)

/-- Lines 87–119: the five tiers, first hit wins; tiers 1 and 2 run only
when `year` is truthy; tier 5 is the head of the list. -/
def matchTiers (title_cn title_en : String) (year : Option Nat)
    (ms : List Candidate) : Option Nat :=
  let t12 : Option Nat :=
    match year with
    | some y =>
      if y != 0 then
        match (ms.find? (tier1Pred title_cn title_en y)).map Candidate.id with
        | some i => some i
        | none => (ms.find? (tier2Pred y)).map Candidate.id
      else none
    | none => none
  match t12 with
  | some i => some i
  | none =>
    match (ms.find? (tier3Pred title_cn title_en)).map Candidate.id with
    | some i => some i
    | none =>
      match (ms.find? (tier4Pred title_cn title_en)).map Candidate.id with
      | some i => some i
      | none => ms.head?.map Candidate.id

/-- `tmdb_search` (lines 33–119) with a pure, never-failing provider:
run the cascade, return `None` on no results, otherwise filter genres and
apply the tiers.  (The diagnostic printing of lines 76–85 is I/O and has
no effect on the returned value.) -/
def tmdb_search (f : String → Option Nat → List Candidate)
    (title_cn title_en : String) (year : Option Nat) : Option Nat :=
  let results := (cascade f title_cn title_en year).2
  if results.isEmpty then none
  else matchTiers title_cn title_en year (movieResults results)

/-! ## Error-aware resolver and batch driver

`requests.get(...).json()` can raise (network error, timeout, non-2xx);
`tmdb_search` does not catch anything, so a provider failure propagates.
The provider is therefore modelled as returning `Except ε`. -/

def tmdb_searchE {ε : Type} (f : String → Option Nat → Except ε (List Candidate))
    (title_cn title_en : String) (year : Option Nat) : Except ε (Option Nat) := do
  let r1 ← f title_cn (yearArg year)
  let r2 ←
    if r1.isEmpty && title_en != "" then
      let c := cleanTitleEn title_en
      if c != "" then f c (yearArg year) else pure r1
    else pure r1
  let results ←
    if r2.isEmpty then do
      let r ← f title_cn none
      if r.isEmpty && title_en != "" then
        let c := cleanTitleEn title_en
        if c != "" then f c none else pure r
      else pure r
    else pure r2
  if results.isEmpty then pure none
  else pure (matchTiers title_cn title_en year (movieResults results))

/-- One record of the loaded catalog, as used by `main` (lines 164–168). -/
structure CatalogMovie where
  rank : Nat
  title_cn : String
  title_en : String
  year : Option Nat
  deriving DecidableEq

/-- The loop of `main` (lines 164–182): resolve each entry in order,
collecting matched entries (paired with their id) and misses.  Nothing
catches a provider failure, so `Except` propagates it and aborts the
whole run.  Python appends a truthy `tmdb_id` to `matched_movies`,
otherwise records a miss. -/
def runBatch {ε : Type} (f : String → Option Nat → Except ε (List Candidate)) :
    List CatalogMovie → Except ε (List (CatalogMovie × Nat) × List CatalogMovie)
  | [] => Except.ok ([], [])
  | m :: rest => do
    let tid ← tmdb_searchE f m.title_cn m.title_en m.year
    let p ← runBatch f rest
    if pyTruthy tid then pure ((m, tid.getD 0) :: p.1, p.2)
    else pure (p.1, m :: p.2)

inductive RunError (ε : Type) where
  | loadFailure : RunError ε
  | provider : ε → RunError ε

/-- `main` including the startup check (lines 153–157): a missing or
empty catalog aborts with a load failure; otherwise the batch runs, and
any provider failure surfaces. -/
def runMain {ε : Type} (catalog : Option (List CatalogMovie))
    (f : String → Option Nat → Except ε (List Candidate)) :
    Except (RunError ε) (List (CatalogMovie × Nat) × List CatalogMovie) :=
  match catalog with
  | none => Except.error RunError.loadFailure
  | some movies =>
    if movies.isEmpty then Except.error RunError.loadFailure
    else (runBatch f movies).mapError RunError.provider

/-! ## merge_yaml.py -/

/-- One record of the primary (douban) catalog, as read by `merge_data`.
The `rating` float is carried opaquely as its literal text. -/
structure SourceMovie where
  rank : Nat
  title_cn : String
  title_en : String
  year : Option Nat
  rating : Option String
  director : String
  actors : String
  deriving DecidableEq

/-- One entry of the secondary (kometa) document's `tmdb_movie` list. -/
structure KometaEntry where
  id : Nat
  title : String
  index : Nat
  deriving DecidableEq

/-- The merged record produced for each primary record. -/
structure MergedMovie where
  rank : Nat
  title_cn : String
  title_en : String
  year : Option Nat
  rating : Option String
  director : String
  actors : String
  tmdb_id : Option Nat
  deriving DecidableEq

/-- One Python dict update `tmdb_mapping[movie["title"]] = {...}`
(lines 24–28): later insertions overwrite earlier ones. -/
def dictInsert (m : String → Option (Nat × Nat)) (e : KometaEntry) :
    String → Option (Nat × Nat) :=
  fun t => if t == e.title then some (e.id, e.index) else m t

/-- The `tmdb_mapping` dict (lines 22–28); `none` models a missing or
malformed secondary document (line 23's guard). -/
def tmdbMapping (td : Option (List KometaEntry)) :
    String → Option (Nat × Nat) :=
  match td with
  | some entries => entries.foldl dictInsert (fun _ => none)
  | none => fun _ => none

/-- `merge_data` (lines 19–50): a left-outer join of the primary catalog
with the mapping, keyed on `title_cn`. -/
def merge_data (douban_movies : List SourceMovie)
    (td : Option (List KometaEntry)) : List MergedMovie :=
  douban_movies.map (fun m =>
    { rank := m.rank
      title_cn := m.title_cn
      title_en := m.title_en
      year := m.year
      rating := m.rating
      director := m.director
      actors := m.actors
      tmdb_id := (tmdbMapping td m.title_cn).map Prod.fst })

/-! ## Concrete fixtures used by witnesses and counterexamples -/

def c1wEarly : Candidate :=
  ⟨10, some "Other", some "Other O", some "2002-01-01", some []⟩

def c1wMatch : Candidate :=
  ⟨11, some " Hero ", some "Ying Xiong", some "2002-05-05", some []⟩

def c1wProvider : String → Option Nat → List Candidate :=
  fun t y => if t == "hero" && y == some 2002 then [c1wEarly, c1wMatch] else []

def c2wCand : Candidate :=
  ⟨1, some "A", some "B", some "2000-01-01", some []⟩

def c2wProvider : String → Option Nat → List Candidate :=
  fun t y => if t == "a" && y == some 2000 then [c2wCand] else []

def c3xA : Candidate :=
  ⟨1, some "aaa", some "bbb", some "1990-01-01", some [99]⟩

def c3xB : Candidate :=
  ⟨2, some "ccc", some "ddd", some "2000-02-02", some [99]⟩

def c3xProvider : String → Option Nat → List Candidate :=
  fun t y => if t == "t" && y == some 2000 then [c3xA, c3xB] else []

def c5m1 : CatalogMovie := ⟨1, "m1", "e1", some 1999⟩

def c5m2 : CatalogMovie := ⟨2, "m2", "e2", some 1998⟩

def c5FailingProvider : String → Option Nat → Except Unit (List Candidate) :=
  fun _ _ => Except.error ()

def c6Mal : Candidate := ⟨1, none, none, some "1994-05-01", none⟩

def c6Good : Candidate := ⟨2, some "a", some "b", some "1994-03-02", some []⟩

def c6Provider : String → Option Nat → List Candidate :=
  fun t y => if t == "x" && y == some 1994 then [c6Mal, c6Good] else []

def c7wMovieA : SourceMovie :=
  ⟨1, "alpha", "Alpha", some 1994, some "9.7", "d1", "a1"⟩

def c7wMovieB : SourceMovie :=
  ⟨2, "beta", "Beta", some 1993, some "9.6", "d2", "a2"⟩

def c7wEntry : KometaEntry := ⟨603, "alpha", 1⟩

def c10wCand : Candidate :=
  ⟨7, some "zzz", some "qqq", some "1980-01-01", some []⟩

def c10wProvider : String → Option Nat → List Candidate :=
  fun t y => if t == "m" && y == none then [c10wCand] else []

/-! ## Helper lemmas -/

theorem movieResults_ne_nil {rs : List Candidate} (h : rs ≠ []) :
    movieResults rs ≠ [] := by
  by_cases hE : (rs.filter (fun c => !isExcludedGenre c)).isEmpty = true
  · simpa [movieResults, hE] using h
  · simp only [movieResults, hE, if_false]
    simpa using hE

theorem matchTiers_isSome (tc te : String) (year : Option Nat)
    {ms : List Candidate} (h : ms ≠ []) :
    (matchTiers tc te year ms).isSome = true := by
  obtain ⟨c, t, rfl⟩ : ∃ c t, ms = c :: t := by
    cases ms with
    | nil => exact absurd rfl h
    | cons c t => exact ⟨c, t, rfl⟩
  unfold matchTiers
  dsimp only
  split
  · simp
  · split
    · simp
    · split
      · simp
      · simp

theorem ok_bind {ε α β : Type} (a : α) (k : α → Except ε β) :
    ((Except.ok a : Except ε α) >>= k) = k a := rfl

theorem error_bind {ε α β : Type} (e : ε) (k : α → Except ε β) :
    ((Except.error e : Except ε α) >>= k) = Except.error e := rfl

theorem pure_eq_ok {ε α : Type} (a : α) :
    (pure a : Except ε α) = Except.ok a := rfl

theorem head?_dropWhile_false {α : Type} (p : α → Bool) (l : List α) (a : α)
    (h : (l.dropWhile p).head? = some a) : p a = false := by
  have hh := List.head?_dropWhile_not p l
  rw [h] at hh
  exact hh

theorem getLast?_dropWhile_some {α : Type} (p : α → Bool) (l : List α) (a : α)
    (h : (l.dropWhile p).getLast? = some a) : l.getLast? = some a := by
  induction l with
  | nil => simp at h
  | cons b t ih =>
    rw [List.dropWhile_cons] at h
    by_cases hb : p b = true
    · rw [if_pos hb] at h
      have ht := ih h
      cases t with
      | nil => simp at ht
      | cons c u => simpa [List.getLast?_cons_cons] using ht
    · rw [if_neg hb] at h
      exact h

theorem pyStrip_data (s : String) :
    (pyStrip s).data =
      ((s.data.dropWhile Char.isWhitespace).reverse.dropWhile
        Char.isWhitespace).reverse := rfl

theorem pyStrip_head (s : String) (a : Char)
    (h : (pyStrip s).data.head? = some a) : a.isWhitespace = false := by
  rw [pyStrip_data, List.head?_reverse] at h
  have h2 := getLast?_dropWhile_some _ _ _ h
  rw [List.getLast?_reverse] at h2
  exact head?_dropWhile_false _ _ _ h2

theorem pyStrip_last (s : String) (a : Char)
    (h : (pyStrip s).data.getLast? = some a) : a.isWhitespace = false := by
  rw [pyStrip_data, List.getLast?_reverse] at h
  exact head?_dropWhile_false _ _ _ h

theorem pyIn_empty_left (s : String) : pyIn "" s = true :=
  decide_eq_true ⟨[], s.data, rfl⟩

theorem pyIn_ne_empty_right (s : String) (h : s ≠ "") : pyIn s "" = false := by
  apply decide_eq_false
  intro hin
  exact h (String.ext (List.infix_nil.mp hin))

theorem cascade_eq_runAttempts (f : String → Option Nat → List Candidate)
    (tc te : String) (year : Option Nat) :
    cascade f tc te year = runAttempts f (attemptList tc te year) := by
  by_cases hc : te ≠ "" ∧ cleanTitleEn te ≠ ""
  · obtain ⟨hb1, hb2⟩ := hc
    cases hE1 : (f tc (yearArg year)).isEmpty with
    | false =>
      have n1 : f tc (yearArg year) ≠ [] := by simpa using hE1
      simp [cascade, attemptList, runAttempts, hb1, hb2, n1]
    | true =>
      have e1 : f tc (yearArg year) = [] := by simpa using hE1
      cases hE2 : (f (cleanTitleEn te) (yearArg year)).isEmpty with
      | false =>
        have n2 : f (cleanTitleEn te) (yearArg year) ≠ [] := by simpa using hE2
        simp [cascade, attemptList, runAttempts, hb1, hb2, e1, n2]
      | true =>
        have e2 : f (cleanTitleEn te) (yearArg year) = [] := by simpa using hE2
        cases hE3 : (f tc none).isEmpty with
        | false =>
          have n3 : f tc none ≠ [] := by simpa using hE3
          simp [cascade, attemptList, runAttempts, hb1, hb2, e1, e2, n3]
        | true =>
          have e3 : f tc none = [] := by simpa using hE3
          cases hE4 : (f (cleanTitleEn te) none).isEmpty with
          | false =>
            have n4 : f (cleanTitleEn te) none ≠ [] := by simpa using hE4
            simp [cascade, attemptList, runAttempts, hb1, hb2, e1, e2, e3, n4]
          | true =>
            have e4 : f (cleanTitleEn te) none = [] := by simpa using hE4
            simp [cascade, attemptList, runAttempts, hb1, hb2, e1, e2, e3, e4]
  · by_cases hb1 : te = ""
    · cases hE1 : (f tc (yearArg year)).isEmpty with
      | false =>
        have n1 : f tc (yearArg year) ≠ [] := by simpa using hE1
        simp [cascade, attemptList, runAttempts, hb1, n1]
      | true =>
        have e1 : f tc (yearArg year) = [] := by simpa using hE1
        cases hE3 : (f tc none).isEmpty with
        | false =>
          have n3 : f tc none ≠ [] := by simpa using hE3
          simp [cascade, attemptList, runAttempts, hb1, e1, n3]
        | true =>
          have e3 : f tc none = [] := by simpa using hE3
          simp [cascade, attemptList, runAttempts, hb1, e1, e3]
    · have hb2 : cleanTitleEn te = "" := by
        by_contra hb2
        exact hc ⟨hb1, hb2⟩
      cases hE1 : (f tc (yearArg year)).isEmpty with
      | false =>
        have n1 : f tc (yearArg year) ≠ [] := by simpa using hE1
        simp [cascade, attemptList, runAttempts, hb1, hb2, n1]
      | true =>
        have e1 : f tc (yearArg year) = [] := by simpa using hE1
        cases hE3 : (f tc none).isEmpty with
        | false =>
          have n3 : f tc none ≠ [] := by simpa using hE3
          simp [cascade, attemptList, runAttempts, hb1, hb2, e1, n3]
        | true =>
          have e3 : f tc none = [] := by simpa using hE3
          simp [cascade, attemptList, runAttempts, hb1, hb2, e1, e3]

theorem tmdb_searchE_ok {ε : Type} (f : String → Option Nat → List Candidate)
    (tc te : String) (year : Option Nat) :
    tmdb_searchE (ε := ε) (fun t y => Except.ok (f t y)) tc te year =
      Except.ok (tmdb_search f tc te year) := by
  cases hE1 : (f tc (yearArg year)).isEmpty with
  | false =>
    have n1 : f tc (yearArg year) ≠ [] := by simpa using hE1
    simp [tmdb_searchE, tmdb_search, cascade, ok_bind, pure_eq_ok, n1]
  | true =>
    have e1 : f tc (yearArg year) = [] := by simpa using hE1
    by_cases hb1 : te = ""
    · cases hE3 : (f tc none).isEmpty with
      | false =>
        have n3 : f tc none ≠ [] := by simpa using hE3
        simp [tmdb_searchE, tmdb_search, cascade, ok_bind, pure_eq_ok, e1,
          hb1, n3]
      | true =>
        have e3 : f tc none = [] := by simpa using hE3
        simp [tmdb_searchE, tmdb_search, cascade, ok_bind, pure_eq_ok, e1,
          hb1, e3]
    · by_cases hb2 : cleanTitleEn te = ""
      · cases hE3 : (f tc none).isEmpty with
        | false =>
          have n3 : f tc none ≠ [] := by simpa using hE3
          simp [tmdb_searchE, tmdb_search, cascade, ok_bind, pure_eq_ok, e1,
            hb1, hb2, n3]
        | true =>
          have e3 : f tc none = [] := by simpa using hE3
          simp [tmdb_searchE, tmdb_search, cascade, ok_bind, pure_eq_ok, e1,
            hb1, hb2, e3]
      · cases hE2 : (f (cleanTitleEn te) (yearArg year)).isEmpty with
        | false =>
          have n2 : f (cleanTitleEn te) (yearArg year) ≠ [] := by
            simpa using hE2
          simp [tmdb_searchE, tmdb_search, cascade, ok_bind, pure_eq_ok, e1,
            hb1, hb2, n2]
        | true =>
          have e2 : f (cleanTitleEn te) (yearArg year) = [] := by
            simpa using hE2
          cases hE3 : (f tc none).isEmpty with
          | false =>
            have n3 : f tc none ≠ [] := by simpa using hE3
            simp [tmdb_searchE, tmdb_search, cascade, ok_bind, pure_eq_ok,
              e1, hb1, hb2, e2, n3]
          | true =>
            have e3 : f tc none = [] := by simpa using hE3
            cases hE4 : (f (cleanTitleEn te) none).isEmpty with
            | false =>
              have n4 : f (cleanTitleEn te) none ≠ [] := by simpa using hE4
              simp [tmdb_searchE, tmdb_search, cascade, ok_bind, pure_eq_ok,
                e1, hb1, hb2, e2, e3, n4]
            | true =>
              have e4 : f (cleanTitleEn te) none = [] := by simpa using hE4
              simp [tmdb_searchE, tmdb_search, cascade, ok_bind, pure_eq_ok,
                e1, hb1, hb2, e2, e3, e4]

theorem foldl_dictInsert (entries : List KometaEntry)
    (m : String → Option (Nat × Nat)) (t : String) :
    (entries.foldl dictInsert m) t =
      (match entries.reverse.find? (fun e => e.title == t) with
        | some e => some (e.id, e.index)
        | none => m t) := by
  induction entries generalizing m with
  | nil => simp
  | cons e rest ih =>
    rw [List.foldl_cons, ih, List.reverse_cons, List.find?_append]
    cases hf : rest.reverse.find? (fun e => e.title == t) with
    | some e2 => simp [hf]
    | none =>
      cases ht : (e.title == t) with
      | true =>
        have ht' : (t == e.title) = true := by
          have : e.title = t := by simpa using ht
          simp [this]
        simp [hf, List.find?, ht, dictInsert, ht']
      | false =>
        have ht' : (t == e.title) = false := by
          have : e.title ≠ t := by simpa using ht
          simpa using (Ne.symm this)
        simp [hf, List.find?, ht, dictInsert, ht']

theorem tmdbMapping_isSome (entries : List KometaEntry) (t : String) :
    ((tmdbMapping (some entries)) t).isSome = true ↔
      ∃ e ∈ entries, e.title = t := by
  show ((entries.foldl dictInsert (fun _ => none)) t).isSome = true ↔ _
  rw [foldl_dictInsert]
  cases hf : entries.reverse.find? (fun e => e.title == t) with
  | some e =>
    simp only [Option.isSome_some, true_iff]
    exact ⟨e, List.mem_reverse.mp (List.mem_of_find?_eq_some hf),
      by simpa using List.find?_some hf⟩
  | none =>
    simp only [Option.isSome_none, Bool.false_eq_true, false_iff]
    rintro ⟨e, he, hte⟩
    have := List.find?_eq_none.mp hf e (List.mem_reverse.mpr he)
    simp [hte] at this

theorem tmdbMapping_some_mem (entries : List KometaEntry) (t : String)
    (p : Nat × Nat) (h : tmdbMapping (some entries) t = some p) :
    ∃ e ∈ entries, e.title = t ∧ e.id = p.1 ∧ e.index = p.2 := by
  rw [show tmdbMapping (some entries) t =
      (entries.foldl dictInsert (fun _ => none)) t from rfl,
    foldl_dictInsert] at h
  cases hf : entries.reverse.find? (fun e => e.title == t) with
  | some e =>
    rw [hf] at h
    refine ⟨e, List.mem_reverse.mp (List.mem_of_find?_eq_some hf),
      by simpa using List.find?_some hf, ?_, ?_⟩
    · exact congrArg Prod.fst (Option.some.inj h)
    · exact congrArg Prod.snd (Option.some.inj h)
  | none =>
    rw [hf] at h
    exact absurd h (by simp)

/-! ## Claims -/

/-- C1: when the year is truthy and the filtered sequence contains exactly
one candidate whose release-year slice equals `str(year)` and whose title
equals the native title (or original title equals the foreign title) after
strip + lower, `tmdb_search` returns that candidate's id: tier 1 selects it
even when same-year candidates with non-matching titles come earlier in
provider order. -/
theorem claim_C1 (f : String → Option Nat → List Candidate)
    (tc te : String) (y : Nat) (c : Candidate) (hy : y ≠ 0)
    (hmem : c ∈ movieResults ((cascade f tc te (some y)).2))
    (hc : tier1Pred tc te y c = true)
    (huniq : ∀ c' ∈ movieResults ((cascade f tc te (some y)).2),
      tier1Pred tc te y c' = true → c' = c) :
    tmdb_search f tc te (some y) = some c.id := by
  have hfind : (movieResults ((cascade f tc te (some y)).2)).find?
      (tier1Pred tc te y) = some c := by
    cases h : (movieResults ((cascade f tc te (some y)).2)).find?
        (tier1Pred tc te y) with
    | none =>
      exact absurd hc (by simpa using List.find?_eq_none.mp h c hmem)
    | some c2 =>
      rw [huniq c2 (List.mem_of_find?_eq_some h) (List.find?_some h)]
  have hne : (cascade f tc te (some y)).2 ≠ [] := by
    intro h0
    rw [h0] at hmem
    simp [movieResults] at hmem
  have hEm : ((cascade f tc te (some y)).2).isEmpty = false := by
    simpa using hne
  have hstep : matchTiers tc te (some y)
      (movieResults ((cascade f tc te (some y)).2)) = some c.id := by
    simp [matchTiers, hy, hfind]
  simpa [tmdb_search, hEm] using hstep

/-- C1 witness: a same-year candidate with a different title appears first
in provider order; resolution still picks the exact title+year match. -/
theorem claim_C1_witness :
    tmdb_search c1wProvider "hero" "He" (some 2002) = some 11 :=
  claim_C1 c1wProvider "hero" "He" 2002 c1wMatch (by decide) (by decide)
    (by decide) (by decide)

/-- C2: the nested search cascade equals running the fixed attempt list
(native+year, cleaned foreign+year, native, cleaned foreign) in order and
stopping at the first non-empty result; in particular, when the first
search is non-empty no other search call is issued. -/
theorem claim_C2 (f : String → Option Nat → List Candidate)
    (tc te : String) (year : Option Nat) :
    cascade f tc te year = runAttempts f (attemptList tc te year) ∧
    ((f tc (yearArg year)).isEmpty = false →
      cascade f tc te year = ([(tc, yearArg year)], f tc (yearArg year))) := by
  refine ⟨cascade_eq_runAttempts f tc te year, fun h => ?_⟩
  have n1 : f tc (yearArg year) ≠ [] := by simpa using h
  simp [cascade, n1]

/-- C2 witness: a provider whose first (year-constrained native) search is
non-empty leads to exactly one issued call. -/
theorem claim_C2_witness :
    cascade c2wProvider "a" "b" (some 2000) =
      ([("a", some 2000)], [c2wCand]) :=
  (claim_C2 c2wProvider "a" "b" (some 2000)).2 (by decide)

/-- C3 counterexample: a result list whose candidates all carry excluded
genre tag 99 is used unfiltered, but the tiers still apply to it: the
year tier picks the second candidate (id 2), not the provider's top-ranked
candidate (id 1), contradicting the claim's parenthetical that the result
is the top-ranked candidate. -/
theorem claim_C3_counterexample :
    tmdb_search c3xProvider "t" "u" (some 2000) = some 2 ∧
    ((cascade c3xProvider "t" "u" (some 2000)).2.all isExcludedGenre) =
      true ∧
    ((cascade c3xProvider "t" "u" (some 2000)).2.head?.map Candidate.id) =
      some 1 :=
  ⟨by decide, by decide, by decide⟩

/-- C3 (amended): when every retrieved candidate carries an excluded genre
tag, the filter is skipped (the unfiltered sequence is used) and the
result is still Matched — some candidate id, selected by the usual tiers,
never Unmatched. -/
theorem claim_C3 (f : String → Option Nat → List Candidate)
    (tc te : String) (year : Option Nat)
    (hne : (cascade f tc te year).2 ≠ [])
    (hex : ∀ c ∈ (cascade f tc te year).2, isExcludedGenre c = true) :
    movieResults ((cascade f tc te year).2) = (cascade f tc te year).2 ∧
    (tmdb_search f tc te year).isSome = true := by
  have hfil : ((cascade f tc te year).2).filter
      (fun c => !isExcludedGenre c) = [] :=
    List.filter_eq_nil_iff.mpr (fun a ha => by simp [hex a ha])
  have h1 : movieResults ((cascade f tc te year).2) =
      (cascade f tc te year).2 := by
    simp [movieResults, hfil]
  have hEm : ((cascade f tc te year).2).isEmpty = false := by simpa using hne
  exact ⟨h1, by
    simpa [tmdb_search, hEm] using
      matchTiers_isSome tc te year (movieResults_ne_nil hne)⟩

/-- C3 witness: the all-excluded two-candidate list still yields a match. -/
theorem claim_C3_witness :
    movieResults ((cascade c3xProvider "t" "u" (some 2000)).2) =
      (cascade c3xProvider "t" "u" (some 2000)).2 ∧
    (tmdb_search c3xProvider "t" "u" (some 2000)).isSome = true :=
  claim_C3 c3xProvider "t" "u" (some 2000) (by decide) (by decide)

/-- C4: totality. With a provider that never fails, the error-aware
resolver returns `ok` of the pure result (never throws); an all-empty
cascade yields `none` (Unmatched) without evaluating the tiers, and a
non-empty cascade always yields `some` id (Matched). -/
theorem claim_C4 (f : String → Option Nat → List Candidate)
    (tc te : String) (year : Option Nat) :
    (∀ (ε : Type) (g : String → Option Nat → Except ε (List Candidate)),
      (∀ t y, g t y = Except.ok (f t y)) →
      tmdb_searchE g tc te year = Except.ok (tmdb_search f tc te year)) ∧
    ((cascade f tc te year).2 = [] → tmdb_search f tc te year = none) ∧
    ((cascade f tc te year).2 ≠ [] →
      (tmdb_search f tc te year).isSome = true) := by
  refine ⟨?_, ?_, ?_⟩
  · intro ε g hg
    have hgf : g = fun t y => Except.ok (f t y) :=
      funext fun t => funext fun y => hg t y
    rw [hgf, tmdb_searchE_ok]
  · intro h
    simp [tmdb_search, h]
  · intro h
    have hEm : ((cascade f tc te year).2).isEmpty = false := by simpa using h
    simpa [tmdb_search, hEm] using
      matchTiers_isSome tc te year (movieResults_ne_nil h)

/-- C4 witness: an always-empty provider returns Unmatched and the
error-aware resolver returns `ok none`. -/
theorem claim_C4_witness :
    tmdb_search (fun _ _ => []) "a" "" none = none ∧
    tmdb_searchE (ε := Unit) (fun _ _ => Except.ok []) "a" "" none =
      Except.ok none := by
  have h := claim_C4 (fun _ _ => ([] : List Candidate)) "a" "" none
  refine ⟨h.2.1 rfl, ?_⟩
  rw [h.1 Unit (fun _ _ => Except.ok []) (fun _ _ => rfl), h.2.1 rfl]

/-- C5 counterexample: a provider that fails is not caught per query: the
batch run over two catalog entries returns the error itself — the second
entry is never given an outcome, contradicting the claim that the driver
continues with the next entry. -/
theorem claim_C5_counterexample :
    runBatch c5FailingProvider [c5m1, c5m2] = Except.error () ∧
    (runBatch c5FailingProvider [c5m1, c5m2]).isOk = false :=
  ⟨rfl, rfl⟩

/-- C5 (amended): a Search Provider failure while resolving an entry
propagates uncaught and aborts the whole batch with that error (later
entries are never processed); a catalog-load failure at startup likewise
aborts the run. -/
theorem claim_C5 {ε : Type}
    (f : String → Option Nat → Except ε (List Candidate))
    (m : CatalogMovie) (rest : List CatalogMovie) (e : ε)
    (h : tmdb_searchE f m.title_cn m.title_en m.year = Except.error e) :
    runBatch f (m :: rest) = Except.error e ∧
    runMain (ε := ε) none f = Except.error RunError.loadFailure := by
  refine ⟨?_, rfl⟩
  unfold runBatch
  rw [h]
  rfl

/-- C5 witness: the always-failing provider aborts a two-entry batch. -/
theorem claim_C5_witness :
    runBatch c5FailingProvider (c5m1 :: [c5m2]) = Except.error () ∧
    runMain (ε := Unit) none c5FailingProvider =
      Except.error RunError.loadFailure :=
  claim_C5 c5FailingProvider c5m1 [c5m2] () rfl

/-- C6 counterexample: a candidate with absent title, original_title and
genre tags but a matching release year is selected by the year tier (the
result is its id 1), even though a well-formed candidate with the same
year follows it — the malformed candidate is evaluated with defaults, not
skipped. -/
theorem claim_C6_counterexample :
    tmdb_search c6Provider "x" "y" (some 1994) = some 1 ∧
    c6Mal.title = none ∧ c6Mal.original_title = none ∧
    c6Mal.genre_ids = none ∧
    c6Good ∈ movieResults ((cascade c6Provider "x" "y" (some 1994)).2) :=
  ⟨by decide, rfl, rfl, rfl, by decide⟩

/-- C6 (amended): a candidate with absent title and original_title is read
with empty-string defaults; when both query titles are non-empty after
strip + lower, it can satisfy none of the title-based tiers (1, 3, 4) —
though it may still be chosen by the year-only tier or the fallback, and
it never aborts the resolution. -/
theorem claim_C6 (tc te : String) (y : Nat) (c : Candidate)
    (htc : stripLower tc ≠ "") (hte : stripLower te ≠ "")
    (h1 : c.title = none) (h2 : c.original_title = none) :
    tier1Pred tc te y c = false ∧ tier3Pred tc te c = false ∧
    tier4Pred tc te c = false := by
  have ht : tmdbTitle c = "" := by simp only [tmdbTitle, h1]; rfl
  have ho : tmdbOriginal c = "" := by simp only [tmdbOriginal, h2]; rfl
  have e1 : (tmdbTitle c == stripLower tc) = false := by
    rw [ht]; exact beq_eq_false_iff_ne.mpr (Ne.symm htc)
  have e2 : (tmdbOriginal c == stripLower te) = false := by
    rw [ho]; exact beq_eq_false_iff_ne.mpr (Ne.symm hte)
  have p1 : pyIn (stripLower tc) (tmdbTitle c) = false := by
    rw [ht]; exact pyIn_ne_empty_right _ htc
  have p2 : pyIn (stripLower te) (tmdbOriginal c) = false := by
    rw [ho]; exact pyIn_ne_empty_right _ hte
  refine ⟨?_, ?_, ?_⟩
  · simp [tier1Pred, e1, e2]
  · simp [tier3Pred, e1, e2]
  · simp [tier4Pred, p1, p2]

/-- C6 witness: the absent-field candidate fails all title tiers for the
query ("x", "y"). -/
theorem claim_C6_witness :
    tier1Pred "x" "y" 1994 c6Mal = false ∧
    tier3Pred "x" "y" c6Mal = false ∧ tier4Pred "x" "y" c6Mal = false :=
  claim_C6 "x" "y" 1994 c6Mal (by decide) (by decide) rfl rfl

/-- C7: the catalog merge is a left-outer join keyed on byte-equal native
titles: one output per primary record in order, all primary fields
preserved, the external id present exactly when some secondary entry's
title equals the native title, and any attached id comes from such an
entry — no fuzzy matching. -/
theorem claim_C7 (douban : List SourceMovie) (td : Option (List KometaEntry))
    (i : Nat) (m : SourceMovie) :
    (merge_data douban td).length = douban.length ∧
    (douban[i]? = some m →
      ∃ mm, (merge_data douban td)[i]? = some mm ∧
        mm.rank = m.rank ∧ mm.title_cn = m.title_cn ∧
        mm.title_en = m.title_en ∧ mm.year = m.year ∧
        mm.rating = m.rating ∧ mm.director = m.director ∧
        mm.actors = m.actors ∧
        (mm.tmdb_id.isSome = true ↔
          ∃ e ∈ td.getD [], e.title = m.title_cn) ∧
        (∀ j, mm.tmdb_id = some j →
          ∃ e ∈ td.getD [], e.title = m.title_cn ∧ e.id = j)) := by
  constructor
  · simp [merge_data]
  · intro h
    have hm : (merge_data douban td)[i]? = some
        { rank := m.rank, title_cn := m.title_cn, title_en := m.title_en,
          year := m.year, rating := m.rating, director := m.director,
          actors := m.actors,
          tmdb_id := (tmdbMapping td m.title_cn).map Prod.fst } := by
      simp [merge_data, h]
    refine ⟨_, hm, rfl, rfl, rfl, rfl, rfl, rfl, rfl, ?_, ?_⟩
    · cases td with
      | none => simp [tmdbMapping]
      | some entries => simpa using tmdbMapping_isSome entries m.title_cn
    · intro j hj
      cases td with
      | none => simp [tmdbMapping] at hj
      | some entries =>
        obtain ⟨p, hp, hpj⟩ := Option.map_eq_some'.mp hj
        obtain ⟨e, he, het, heid, _⟩ := tmdbMapping_some_mem entries _ p hp
        exact ⟨e, by simpa using he, het, by rw [heid, hpj]⟩

/-- C7 witness: a two-record catalog merged with one matching secondary
entry. -/
theorem claim_C7_witness :
    ∃ mm, (merge_data [c7wMovieA, c7wMovieB] (some [c7wEntry]))[0]? =
        some mm ∧
      mm.rank = c7wMovieA.rank ∧ mm.title_cn = c7wMovieA.title_cn ∧
      mm.title_en = c7wMovieA.title_en ∧ mm.year = c7wMovieA.year ∧
      mm.rating = c7wMovieA.rating ∧ mm.director = c7wMovieA.director ∧
      mm.actors = c7wMovieA.actors ∧
      (mm.tmdb_id.isSome = true ↔
        ∃ e ∈ (some [c7wEntry]).getD [], e.title = c7wMovieA.title_cn) ∧
      (∀ j, mm.tmdb_id = some j →
        ∃ e ∈ (some [c7wEntry]).getD [],
          e.title = c7wMovieA.title_cn ∧ e.id = j) :=
  (claim_C7 [c7wMovieA, c7wMovieB] (some [c7wEntry]) 0 c7wMovieA).2 rfl

/-- C8 counterexample: for the foreign title "/ /a" the cleaned title is
"/a", which begins with a slash — the claim that the cleaned string never
begins with '/' fails (only the first run of slashes after the initial
trim is removed, and the final trim can expose a later slash). -/
theorem claim_C8_counterexample :
    cleanTitleEn "/ /a" = "/a" ∧
    (cleanTitleEn "/ /a").data.head? = some '/' :=
  ⟨by decide, by decide⟩

/-- C8 (amended): the cleaned foreign title never has leading or trailing
whitespace, and it is exactly the query text of cascade steps 2 and 4
(when those steps exist); it may, however, still begin with '/'. -/
theorem claim_C8 (tc te : String) (year : Option Nat) :
    (∀ a, (cleanTitleEn te).data.head? = some a → a.isWhitespace = false) ∧
    (∀ a, (cleanTitleEn te).data.getLast? = some a →
      a.isWhitespace = false) ∧
    (te ≠ "" → cleanTitleEn te ≠ "" →
      attemptList tc te year =
        [(tc, yearArg year), (cleanTitleEn te, yearArg year),
          (tc, none), (cleanTitleEn te, none)]) := by
  refine ⟨fun a h => pyStrip_head _ a h, fun a h => pyStrip_last _ a h, ?_⟩
  intro h1 h2
  simp [attemptList, h1, h2]

/-- C8 witness: for the foreign title "b" the cleaned title's single
character is non-whitespace and the attempt list uses it in steps 2 and 4. -/
theorem claim_C8_witness :
    Char.isWhitespace 'b' = false ∧
    attemptList "a" "b" none =
      [("a", none), ("b", none), ("a", none), ("b", none)] := by
  have h := claim_C8 "a" "b" none
  exact ⟨h.1 'b' (by decide), h.2.2 (by decide) (by decide)⟩

/-- C9: determinism — two providers that agree on every search call give
identical results for the same query, so re-running a resolution with
identical provider output yields an identical MatchResult. -/
theorem claim_C9 (f g : String → Option Nat → List Candidate)
    (tc te : String) (year : Option Nat)
    (h : ∀ t y, f t y = g t y) :
    tmdb_search f tc te year = tmdb_search g tc te year := by
  have hfg : f = g := funext fun t => funext fun y => h t y
  rw [hfg]

/-- C9 witness: two syntactically different but extensionally equal
providers give the same result. -/
theorem claim_C9_witness :
    tmdb_search (fun _ _ => [c2wCand]) "a" "b" none =
      tmdb_search (fun _ _ => [c2wCand] ++ []) "a" "b" none :=
  claim_C9 _ _ "a" "b" none (fun _ _ => by simp)

/-- C10: with an empty foreign title, the empty string is a substring of
every candidate's original title, so when tiers 1–3 find nothing the
substring tier matches the first candidate of the (possibly filtered)
sequence: the result equals the head's id and tier 4 — not the explicit
tier-5 fallback — produces it. -/
theorem claim_C10 (f : String → Option Nat → List Candidate)
    (tc : String) (year : Option Nat)
    (hne : movieResults ((cascade f tc "" year).2) ≠ [])
    (h3 : (movieResults ((cascade f tc "" year).2)).find?
      (tier3Pred tc "") = none)
    (h12 : ∀ y, year = some y →
      (movieResults ((cascade f tc "" year).2)).find?
          (tier1Pred tc "" y) = none ∧
        (movieResults ((cascade f tc "" year).2)).find? (tier2Pred y) =
          none) :
    tmdb_search f tc "" year =
      (movieResults ((cascade f tc "" year).2)).head?.map Candidate.id ∧
    (movieResults ((cascade f tc "" year).2)).find? (tier4Pred tc "") =
      (movieResults ((cascade f tc "" year).2)).head? := by
  obtain ⟨c, t, hms⟩ :
      ∃ c t, movieResults ((cascade f tc "" year).2) = c :: t := by
    cases hm : movieResults ((cascade f tc "" year).2) with
    | nil => exact absurd hm hne
    | cons c t => exact ⟨c, t, rfl⟩
  have h4c : tier4Pred tc "" c = true := by
    have hp : pyIn (stripLower "") (tmdbOriginal c) = true := pyIn_empty_left _
    simp [tier4Pred, hp]
  have h4 : (movieResults ((cascade f tc "" year).2)).find?
      (tier4Pred tc "") = some c := by
    rw [hms]
    exact List.find?_cons_of_pos _ h4c
  have hhead : (movieResults ((cascade f tc "" year).2)).head? = some c := by
    rw [hms]; rfl
  have hrs : (cascade f tc "" year).2 ≠ [] := by
    intro h0
    exact hne (by rw [h0]; rfl)
  have hEm : ((cascade f tc "" year).2).isEmpty = false := by simpa using hrs
  refine ⟨?_, by rw [h4, hhead]⟩
  have hmt : matchTiers tc "" year
      (movieResults ((cascade f tc "" year).2)) = some c.id := by
    cases year with
    | none => simp [matchTiers, h3, h4]
    | some y =>
      obtain ⟨hA, hB⟩ := h12 y rfl
      by_cases hy : y = 0
      · subst hy
        simp [matchTiers, h3, h4]
      · simp [matchTiers, hy, hA, hB, h3, h4]
  rw [hhead]
  simpa [tmdb_search, hEm] using hmt

/-- C10 witness: a single candidate with unrelated titles and an empty
foreign title in the query is returned through the substring tier. -/
theorem claim_C10_witness :
    tmdb_search c10wProvider "m" "" none =
      (movieResults ((cascade c10wProvider "m" "" none).2)).head?.map
        Candidate.id ∧
    (movieResults ((cascade c10wProvider "m" "" none).2)).find?
        (tier4Pred "m" "") =
      (movieResults ((cascade c10wProvider "m" "" none).2)).head? :=
  claim_C10 c10wProvider "m" none (by decide) (by decide)
    (fun y hy => nomatch hy)

end MyScripts
